import Mathlib

/-!
Verification development for the VibeGuard AI repository.

Part 1 models the on-chain risk registry `VibeGuardRiskNFT.sol`
(`src/contracts/VibeGuardRiskNFT.sol`): addresses, uint256 ids and
timestamps are modelled as `Nat` (all arithmetic used stays far below
2^256, so no wrap-around can occur), Solidity mappings as total
functions with the zero-value default, and a reverting call as
`Except`: an `Except.error` result corresponds to a revert, which in
the EVM rolls back every state change of the call.
-/

namespace VG

/-- Risk record stored per NFT id, translated from `struct RiskData`. -/
structure RiskData where
  tokenAddress : Nat
  riskScore : Nat
  honeypotScore : Nat
  rugPullScore : Nat
  liquidityScore : Nat
  lastUpdated : Nat
  isActive : Bool
  riskLevel : String
deriving DecidableEq

/-- Solidity zero value of `RiskData` (default of the `riskRegistry` mapping). -/
def RiskData.zero : RiskData :=
  ⟨0, 0, 0, 0, 0, 0, false, ""⟩

/-- Contract storage of `VibeGuardRiskNFT`: the counter, the three
mappings, the authorized-agent set and the `Ownable` owner.  The ERC721
bookkeeping of the minted certificate NFTs is not observable through any
function involved in the claims and is omitted. -/
structure State where
  nextTokenId : Nat
  riskRegistry : Nat → RiskData
  tokenToNftId : Nat → Nat
  isRegistered : Nat → Bool
  authorizedAgents : Nat → Bool
  owner : Nat

/-- Constructor: deployer becomes owner and is marked as authorized agent. -/
def deploy (deployer : Nat) : State where
  nextTokenId := 0
  riskRegistry := fun _ => RiskData.zero
  tokenToNftId := fun _ => 0
  isRegistered := fun _ => false
  authorizedAgents := fun a => a == deployer
  owner := deployer

/-- Revert reasons of the registry (the `require` messages of the contract). -/
inductive Err where
  | notAuthorized
  | alreadyRegistered
  | zeroAddress
  | notRegistered
  | scoreOutOfRange
  | notOwner
deriving DecidableEq

/-- The `onlyAuthorizedAgent` modifier condition:
`authorizedAgents[msg.sender] || msg.sender == owner()`. -/
def isAuth (s : State) (caller : Nat) : Bool :=
  s.authorizedAgents caller || (caller == s.owner)

/-- `_getRiskLevel`: fixed bands mapping a score to the level string. -/
def getRiskLevel (score : Nat) : String :=
  if score ≤ 20 then "SAFE"
  else if score ≤ 40 then "LOW"
  else if score ≤ 60 then "MEDIUM"
  else if score ≤ 80 then "HIGH"
  else "CRITICAL"

/-- `registerToken(address)`: authorization modifier, then
`require(!isRegistered)`, then `require(tokenAddress != 0)`; mints id
`_nextTokenId++`, stores the neutral default record and marks the
address registered.  Returns the new state and the minted id. -/
def registerToken (caller tokenAddress now : Nat) (s : State) :
    Except Err (State × Nat) :=
  if isAuth s caller then
    if s.isRegistered tokenAddress then .error .alreadyRegistered
    else if tokenAddress = 0 then .error .zeroAddress
    else
      let tokenId := s.nextTokenId
      .ok ({ nextTokenId := tokenId + 1
             riskRegistry := fun id =>
               if id = tokenId then
                 ⟨tokenAddress, 50, 0, 0, 50, now, true, "PENDING"⟩
               else s.riskRegistry id
             tokenToNftId := fun t =>
               if t = tokenAddress then tokenId else s.tokenToNftId t
             isRegistered := fun t =>
               if t = tokenAddress then true else s.isRegistered t
             authorizedAgents := s.authorizedAgents
             owner := s.owner }, tokenId)
  else .error .notAuthorized

/-- The `AlertTriggered` emissions of one `updateRiskScore` call: the
`if / else if / else if` cascade at the end of the function. -/
def alertsFor (riskScore honeypotScore rugPullScore : Nat) : List (Nat × String) :=
  if 80 ≤ riskScore then [(riskScore, "CRITICAL_RISK")]
  else if 70 ≤ honeypotScore then [(honeypotScore, "HONEYPOT_WARNING")]
  else if 70 ≤ rugPullScore then [(rugPullScore, "RUG_PULL_WARNING")]
  else []

/-- `updateRiskScore(address,uint8,uint8,uint8,uint8)`: authorization
modifier, `require(isRegistered)`, `require` that all four scores are
`≤ 100`, then a wholesale overwrite of the stored record and the alert
cascade.  Returns the new state and the emitted `AlertTriggered` events. -/
def updateRiskScore (caller tokenAddress riskScore honeypotScore rugPullScore
    liquidityScore now : Nat) (s : State) :
    Except Err (State × List (Nat × String)) :=
  if isAuth s caller then
    if s.isRegistered tokenAddress then
      if riskScore ≤ 100 ∧ honeypotScore ≤ 100 ∧ rugPullScore ≤ 100 ∧
          liquidityScore ≤ 100 then
        let tokenId := s.tokenToNftId tokenAddress
        let lvl := getRiskLevel riskScore
        .ok ({ s with riskRegistry := fun id =>
                 if id = tokenId then
                   ⟨tokenAddress, riskScore, honeypotScore, rugPullScore,
                    liquidityScore, now, true, lvl⟩
                 else s.riskRegistry id },
             alertsFor riskScore honeypotScore rugPullScore)
      else .error .scoreOutOfRange
    else .error .notRegistered
  else .error .notAuthorized

/-- `authorizeAgent(address)`: `onlyOwner`, sets the flag. -/
def authorizeAgent (caller agent : Nat) (s : State) : Except Err State :=
  if caller = s.owner then
    .ok { s with authorizedAgents := fun a =>
            if a = agent then true else s.authorizedAgents a }
  else .error .notOwner

/-- `revokeAgent(address)`: `onlyOwner`, clears the flag. -/
def revokeAgent (caller agent : Nat) (s : State) : Except Err State :=
  if caller = s.owner then
    .ok { s with authorizedAgents := fun a =>
            if a = agent then false else s.authorizedAgents a }
  else .error .notOwner

/-- State reached by a `registerToken` transaction: on revert the EVM
rolls back, so the pre-state is kept. -/
def regRun (caller tokenAddress now : Nat) (s : State) : State :=
  match registerToken caller tokenAddress now s with
  | .ok (s', _) => s'
  | .error _ => s

/-- State reached by an `updateRiskScore` transaction (revert keeps the
pre-state). -/
def updRun (caller tokenAddress rs hs rp ls now : Nat) (s : State) : State :=
  match updateRiskScore caller tokenAddress rs hs rp ls now s with
  | .ok (s', _) => s'
  | .error _ => s

/-- One external transaction against the registry. -/
inductive Act where
  | reg (caller tokenAddress : Nat)
  | upd (caller tokenAddress rs hs rp ls : Nat)
  | auth (caller agent : Nat)
  | revoke (caller agent : Nat)

/-- Transaction semantics: reverts keep the pre-state. -/
def step (now : Nat) (s : State) : Act → State
  | .reg c a => regRun c a now s
  | .upd c a rs hs rp ls => updRun c a rs hs rp ls now s
  | .auth c a => match authorizeAgent c a s with | .ok s' => s' | .error _ => s
  | .revoke c a => match revokeAgent c a s with | .ok s' => s' | .error _ => s

/-- Running a sequence of transactions. -/
def run (now : Nat) (s : State) (acts : List Act) : State :=
  acts.foldl (step now) s

end VG

namespace VG

/-- Error projection of a registry call result. -/
def errOf {α : Type} : Except Err α → Option Err
  | .error e => some e
  | .ok _ => none

/-- Sample chain history: deployer `1` deploys and registers token `5`
at time `10`. -/
def sampleReg : State := regRun 1 5 10 (deploy 1)

/-- Helper: every single transaction preserves a registered flag. -/
theorem step_isRegistered_mono (now : Nat) (s : State) (act : Act) (a : Nat)
    (h : s.isRegistered a = true) : (step now s act).isRegistered a = true := by
  cases act with
  | reg c a' =>
    simp only [step, regRun]
    cases hreg : registerToken c a' now s with
    | error e => exact h
    | ok p =>
      obtain ⟨s', id⟩ := p
      unfold registerToken at hreg
      split_ifs at hreg with h1 h2 h3
      simp only [Except.ok.injEq, Prod.mk.injEq] at hreg
      obtain ⟨h4, -⟩ := hreg
      subst h4
      by_cases hx : a = a' <;> simp [hx, h]
  | upd c a' rs hs rp ls =>
    simp only [step, updRun]
    cases hupd : updateRiskScore c a' rs hs rp ls now s with
    | error e => exact h
    | ok p =>
      obtain ⟨s', al⟩ := p
      unfold updateRiskScore at hupd
      split_ifs at hupd with h1 h2 h3
      simp only [Except.ok.injEq, Prod.mk.injEq] at hupd
      obtain ⟨h4, -⟩ := hupd
      subst h4
      exact h
  | auth c a' =>
    simp only [step]
    cases ha : authorizeAgent c a' s with
    | error e => exact h
    | ok s' =>
      unfold authorizeAgent at ha
      split_ifs at ha
      simp only [Except.ok.injEq] at ha
      subst ha
      exact h
  | revoke c a' =>
    simp only [step]
    cases ha : revokeAgent c a' s with
    | error e => exact h
    | ok s' =>
      unfold revokeAgent at ha
      split_ifs at ha
      simp only [Except.ok.injEq] at ha
      subst ha
      exact h

/-- Helper: a registered flag survives any transaction sequence. -/
theorem run_isRegistered_mono (now : Nat) (s : State) (acts : List Act) (a : Nat)
    (h : s.isRegistered a = true) : (run now s acts).isRegistered a = true := by
  induction acts generalizing s with
  | nil => exact h
  | cons act rest ih => exact ih _ (step_isRegistered_mono now s act a h)

end VG

/-- C1: for every token address and any caller, `updateRiskScore` fails
whenever the token is unregistered or any one of the four scores exceeds
100, and the failed transaction leaves the registry state unchanged; a
successful call atomically replaces the entire stored record with the
new values (no partial merge), recomputing `riskLevel` from the new
`riskScore`, and touches nothing else. -/
theorem updateRiskScore_guards_and_atomic_replace
    (caller a rs hs rp ls now : Nat) (s : VG.State) :
    ((s.isRegistered a = false ∨ 100 < rs ∨ 100 < hs ∨ 100 < rp ∨ 100 < ls) →
      (∃ e, VG.updateRiskScore caller a rs hs rp ls now s = .error e) ∧
        VG.updRun caller a rs hs rp ls now s = s) ∧
    (∀ s' al, VG.updateRiskScore caller a rs hs rp ls now s = .ok (s', al) →
      s'.riskRegistry (s.tokenToNftId a) =
        ⟨a, rs, hs, rp, ls, now, true, VG.getRiskLevel rs⟩ ∧
      (∀ id, id ≠ s.tokenToNftId a → s'.riskRegistry id = s.riskRegistry id) ∧
      s'.isRegistered = s.isRegistered ∧ s'.tokenToNftId = s.tokenToNftId ∧
      s'.nextTokenId = s.nextTokenId ∧
      s'.authorizedAgents = s.authorizedAgents ∧ s'.owner = s.owner) := by
  constructor
  · intro h
    unfold VG.updRun VG.updateRiskScore
    split_ifs with h1 h2 h3
    · rcases h with h | h | h | h | h
      · simp [h2] at h
      all_goals omega
    · exact ⟨⟨_, rfl⟩, rfl⟩
    · exact ⟨⟨_, rfl⟩, rfl⟩
    · exact ⟨⟨_, rfl⟩, rfl⟩
  · intro s' al h
    unfold VG.updateRiskScore at h
    split_ifs at h with h1 h2 h3
    cases h
    refine ⟨by simp, fun id hid => by simp [hid], rfl, rfl, rfl, rfl, rfl⟩

/-- C1 witness: in a deployed registry with token 5 registered, an
update with `riskScore = 101` fails and changes nothing, while the
update `(75, 60, 80, 30)` succeeds and stores exactly that record with
recomputed level `"HIGH"`. -/
theorem updateRiskScore_guards_and_atomic_replace_witness :
    ((∃ e, VG.updateRiskScore 1 5 101 0 0 0 20 VG.sampleReg = .error e) ∧
      VG.updRun 1 5 101 0 0 0 20 VG.sampleReg = VG.sampleReg) ∧
    (VG.updRun 1 5 75 60 80 30 20 VG.sampleReg).riskRegistry
        (VG.sampleReg.tokenToNftId 5) =
      ⟨5, 75, 60, 80, 30, 20, true, "HIGH"⟩ := by
  refine ⟨(updateRiskScore_guards_and_atomic_replace 1 5 101 0 0 0 20
    VG.sampleReg).1 (Or.inr (Or.inl (by norm_num))), ?_⟩
  have h : VG.updateRiskScore 1 5 75 60 80 30 20 VG.sampleReg =
      .ok (VG.updRun 1 5 75 60 80 30 20 VG.sampleReg, VG.alertsFor 75 60 80) := rfl
  exact ((updateRiskScore_guards_and_atomic_replace 1 5 75 60 80 30 20
    VG.sampleReg).2 _ _ h).1

/-- C2: a successful `updateRiskScore` emits at most one
`AlertTriggered` event, with first-match precedence `riskScore ≥ 80 →
CRITICAL_RISK`, else `honeypotScore ≥ 70 → HONEYPOT_WARNING`, else
`rugPullScore ≥ 70 → RUG_PULL_WARNING`, else none. -/
theorem updateRiskScore_alert_precedence
    (caller a rs hs rp ls now : Nat) (s s' : VG.State)
    (al : List (Nat × String))
    (h : VG.updateRiskScore caller a rs hs rp ls now s = .ok (s', al)) :
    al.length ≤ 1 ∧
    (80 ≤ rs → al = [(rs, "CRITICAL_RISK")]) ∧
    (rs < 80 → 70 ≤ hs → al = [(hs, "HONEYPOT_WARNING")]) ∧
    (rs < 80 → hs < 70 → 70 ≤ rp → al = [(rp, "RUG_PULL_WARNING")]) ∧
    (rs < 80 → hs < 70 → rp < 70 → al = []) := by
  have hal : al = VG.alertsFor rs hs rp := by
    unfold VG.updateRiskScore at h
    split_ifs at h
    cases h
    rfl
  subst hal
  unfold VG.alertsFor
  split_ifs with h1 h2 h3 <;>
    refine ⟨by simp, ?_, ?_, ?_, ?_⟩ <;> intros <;> first | rfl | omega

/-- C2 witness: with token 5 registered, the update
`riskScore = 85, honeypot = 30, rugPull = 30` emits exactly the
`CRITICAL_RISK` alert. -/
theorem updateRiskScore_alert_precedence_witness :
    ∃ s' : VG.State,
      VG.updateRiskScore 1 5 85 30 30 50 20 VG.sampleReg =
        .ok (s', [(85, "CRITICAL_RISK")]) := by
  have h : VG.updateRiskScore 1 5 85 30 30 50 20 VG.sampleReg =
      .ok (VG.updRun 1 5 85 30 30 50 20 VG.sampleReg, VG.alertsFor 85 30 30) := rfl
  have h2 := (updateRiskScore_alert_precedence 1 5 85 30 30 50 20
    VG.sampleReg _ _ h).2.1 (by norm_num)
  exact ⟨_, h2 ▸ h⟩

/-- C3 counterexample: after token 5 is registered, a second
`registerToken(5)` issued by the unauthorized caller `2` fails with
`Not authorized`, not with `Already registered` — so the claim that a
second call fails "already registered" regardless of the caller is
false as stated. -/
theorem registerToken_second_caller_counterexample :
    VG.sampleReg.isRegistered 5 = true ∧
    VG.errOf (VG.registerToken 2 5 20 VG.sampleReg) =
      some VG.Err.notAuthorized ∧
    VG.Err.notAuthorized ≠ VG.Err.alreadyRegistered := by
  decide

/-- C3 (amended): the first successful `registerToken(A)` stores the
neutral default record (`riskScore = 50`, `riskLevel = "PENDING"`) and
marks `A` registered; every later `registerToken(A)` fails — with
`Already registered` for callers passing the authorization modifier and
with `Not authorized` for all others — and the registered flag survives
every subsequent transaction sequence, so each address registers at
most once, ever. -/
theorem registerToken_one_shot
    (caller a now : Nat) (s : VG.State) :
    (s.isRegistered a = true →
      VG.registerToken caller a now s =
        .error (if VG.isAuth s caller then .alreadyRegistered
                else .notAuthorized)) ∧
    (s.isRegistered a = false → VG.isAuth s caller = true → a ≠ 0 →
      ∃ s', VG.registerToken caller a now s = .ok (s', s.nextTokenId) ∧
        s'.riskRegistry s.nextTokenId =
          ⟨a, 50, 0, 0, 50, now, true, "PENDING"⟩ ∧
        s'.isRegistered a = true) ∧
    (∀ acts, s.isRegistered a = true →
      (VG.run now s acts).isRegistered a = true) := by
  refine ⟨?_, ?_, fun acts h => VG.run_isRegistered_mono now s acts a h⟩
  · intro h
    unfold VG.registerToken
    split_ifs with h1 <;> simp_all
  · intro h hA hz
    unfold VG.registerToken
    rw [if_pos hA, if_neg (by simp [h]), if_neg hz]
    exact ⟨_, rfl, by simp, by simp⟩

/-- C3 witness: against the sample registry, the owner re-registering
token 5 fails with `Already registered`, a fresh token 7 registers with
the neutral defaults, and the registered flag of token 5 survives a
further update transaction. -/
theorem registerToken_one_shot_witness :
    VG.registerToken 1 5 20 VG.sampleReg =
      .error VG.Err.alreadyRegistered ∧
    (∃ s', VG.registerToken 1 7 20 VG.sampleReg =
        .ok (s', VG.sampleReg.nextTokenId) ∧
      s'.riskRegistry VG.sampleReg.nextTokenId =
        ⟨7, 50, 0, 0, 50, 20, true, "PENDING"⟩ ∧
      s'.isRegistered 7 = true) ∧
    (VG.run 20 VG.sampleReg [VG.Act.upd 1 5 90 0 0 0]).isRegistered 5 = true := by
  refine ⟨?_, ?_, ?_⟩
  · exact (registerToken_one_shot 1 5 20 VG.sampleReg).1 (by decide)
  · exact (registerToken_one_shot 1 7 20 VG.sampleReg).2.1 (by decide)
      (by decide) (by decide)
  · exact (registerToken_one_shot 1 5 20 VG.sampleReg).2.2 _ (by decide)

namespace VGP

/-- Modelled from the spec: revert reasons of the pausable registry
variant, i.e. the reasons of `VibeGuardRiskNFT` plus the circuit-breaker
rejections (`PausedError`, and the un-pause guard of the OpenZeppelin
`Pausable` pattern used by the repository's contracts). -/
inductive PErr where
  | notAuthorized
  | alreadyRegistered
  | zeroAddress
  | notRegistered
  | scoreOutOfRange
  | notOwner
  | pausedError
  | notPaused
deriving DecidableEq

/-- Modelled from the spec: storage of the pausable registry variant.
The contract version carrying the owner-only circuit breaker and the
read-time staleness flag is missing from `src/` — only its Hardhat test
suite (`pause`, `stalenessThreshold`, 4-component `queryRisk`) and the
agent-side ABI declaration appear there — so it is modelled from §3 and
§4.3 of the spec: the `VibeGuardRiskNFT` state plus a global `paused`
flag and a staleness threshold, defaulting to 24 hours.  The stored
record type is the unchanged `VG.RiskData`: staleness is not a field of
the record. -/
structure PState where
  nextTokenId : Nat
  riskRegistry : Nat → VG.RiskData
  tokenToNftId : Nat → Nat
  isRegistered : Nat → Bool
  authorizedAgents : Nat → Bool
  owner : Nat
  paused : Bool
  stalenessThreshold : Nat

/-- Modelled from the spec: deployment of the pausable variant —
unpaused, 24-hour default staleness threshold, deployer owner and
authorized. -/
def deploy (deployer : Nat) : PState where
  nextTokenId := 0
  riskRegistry := fun _ => VG.RiskData.zero
  tokenToNftId := fun _ => 0
  isRegistered := fun _ => false
  authorizedAgents := fun a => a == deployer
  owner := deployer
  paused := false
  stalenessThreshold := 24 * 60 * 60

/-- Authorization condition of the pausable variant (as in the source
contract). -/
def isAuth (s : PState) (caller : Nat) : Bool :=
  s.authorizedAgents caller || (caller == s.owner)

/-- Modelled from the spec: `pause()` — owner-only circuit breaker;
the OpenZeppelin `_pause` additionally rejects when already paused. -/
def pause (caller : Nat) (s : PState) : Except PErr PState :=
  if caller = s.owner then
    if s.paused then .error .pausedError
    else .ok { s with paused := true }
  else .error .notOwner

/-- Modelled from the spec: `unpause()` — owner-only; rejects when not
paused. -/
def unpause (caller : Nat) (s : PState) : Except PErr PState :=
  if caller = s.owner then
    if s.paused then .ok { s with paused := false }
    else .error .notPaused
  else .error .notOwner

/-- Modelled from the spec: `registerToken` of the pausable variant —
while paused every mutating call is rejected uniformly
(`PausedError`), before any other check; otherwise exactly the source
contract's logic. -/
def registerToken (caller tokenAddress now : Nat) (s : PState) :
    Except PErr (PState × Nat) :=
  if s.paused then .error .pausedError
  else if isAuth s caller then
    if s.isRegistered tokenAddress then .error .alreadyRegistered
    else if tokenAddress = 0 then .error .zeroAddress
    else
      let tokenId := s.nextTokenId
      .ok ({ s with
             nextTokenId := tokenId + 1
             riskRegistry := fun id =>
               if id = tokenId then
                 ⟨tokenAddress, 50, 0, 0, 50, now, true, "PENDING"⟩
               else s.riskRegistry id
             tokenToNftId := fun t =>
               if t = tokenAddress then tokenId else s.tokenToNftId t
             isRegistered := fun t =>
               if t = tokenAddress then true else s.isRegistered t }, tokenId)
  else .error .notAuthorized

/-- Modelled from the spec: `updateRiskScore` of the pausable variant —
uniform `PausedError` while paused, otherwise the source contract's
logic. -/
def updateRiskScore (caller tokenAddress riskScore honeypotScore rugPullScore
    liquidityScore now : Nat) (s : PState) :
    Except PErr (PState × List (Nat × String)) :=
  if s.paused then .error .pausedError
  else if isAuth s caller then
    if s.isRegistered tokenAddress then
      if riskScore ≤ 100 ∧ honeypotScore ≤ 100 ∧ rugPullScore ≤ 100 ∧
          liquidityScore ≤ 100 then
        let tokenId := s.tokenToNftId tokenAddress
        .ok ({ s with riskRegistry := fun id =>
                 if id = tokenId then
                   ⟨tokenAddress, riskScore, honeypotScore, rugPullScore,
                    liquidityScore, now, true, VG.getRiskLevel riskScore⟩
                 else s.riskRegistry id },
             VG.alertsFor riskScore honeypotScore rugPullScore)
      else .error .scoreOutOfRange
    else .error .notRegistered
  else .error .notAuthorized

/-- Modelled from the spec: `queryRisk(address)` of the pausable
variant, returning `(score, levelString, lastUpdated, isStale)` with
`isStale` computed at read time as `now − lastUpdated > threshold`;
the call reads the stored record and returns — no state is written. -/
def queryRisk (tokenAddress now : Nat) (s : PState) :
    Except PErr (Nat × String × Nat × Bool) :=
  if s.isRegistered tokenAddress then
    let d := s.riskRegistry (s.tokenToNftId tokenAddress)
    .ok (d.riskScore, d.riskLevel, d.lastUpdated,
         decide (s.stalenessThreshold < now - d.lastUpdated))
  else .error .notRegistered

/-- State reached by a `registerToken` transaction on the pausable
variant (revert keeps the pre-state). -/
def regRun (caller tokenAddress now : Nat) (s : PState) : PState :=
  match registerToken caller tokenAddress now s with
  | .ok (s', _) => s'
  | .error _ => s

/-- Sample history on the pausable variant: deployer `1` registers
token `5` at time `10`. -/
def sampleP : PState := regRun 1 5 10 (deploy 1)

end VGP

/-- C4: the registry exposes an owner-only global pause: while paused,
`registerToken` and `updateRiskScore` are rejected with the uniform
`PausedError` for every caller (authorized or not); non-owners cannot
pause; and an owner pause followed by an owner unpause restores exactly
the prior state, hence the prior behavior. -/
theorem pause_circuit_breaker
    (caller a rs hs rp ls now : Nat) (s : VGP.PState) :
    (s.paused = true →
      VGP.registerToken caller a now s = .error .pausedError ∧
      VGP.updateRiskScore caller a rs hs rp ls now s = .error .pausedError) ∧
    (caller ≠ s.owner → ∃ e, VGP.pause caller s = .error e) ∧
    (s.paused = false → caller = s.owner →
      ∃ s', VGP.pause caller s = .ok s' ∧ s'.paused = true ∧
        VGP.unpause caller s' = .ok s) := by
  refine ⟨?_, ?_, ?_⟩
  · intro hp
    constructor
    · unfold VGP.registerToken
      rw [if_pos hp]
    · unfold VGP.updateRiskScore
      rw [if_pos hp]
  · intro hc
    unfold VGP.pause
    rw [if_neg hc]
    exact ⟨_, rfl⟩
  · intro hp hc
    refine ⟨{ s with paused := true }, ?_, rfl, ?_⟩
    · unfold VGP.pause
      rw [if_pos hc, if_neg (by simp [hp])]
    · unfold VGP.unpause
      rw [if_pos hc, if_pos rfl]
      cases s
      simp_all

/-- C4 witness: on the sample pausable registry, pausing as owner `1`
succeeds, the paused registry rejects `registerToken` and
`updateRiskScore` from the (authorized) owner itself with the uniform
paused error, caller `2` cannot pause, and unpausing restores the exact
pre-pause state. -/
theorem pause_circuit_breaker_witness :
    (∃ s', VGP.pause 1 VGP.sampleP = .ok s' ∧ s'.paused = true ∧
      VGP.unpause 1 s' = .ok VGP.sampleP) ∧
    (VGP.registerToken 1 7 20 { VGP.sampleP with paused := true } =
        .error .pausedError ∧
      VGP.updateRiskScore 1 5 40 0 0 0 20 { VGP.sampleP with paused := true } =
        .error .pausedError) ∧
    (∃ e, VGP.pause 2 VGP.sampleP = .error e) := by
  refine ⟨(pause_circuit_breaker 1 0 0 0 0 0 0 VGP.sampleP).2.2 (by decide)
      (by decide), ?_, ?_⟩
  · constructor
    · exact ((pause_circuit_breaker 1 7 0 0 0 0 20
        { VGP.sampleP with paused := true }).1 rfl).1
    · exact ((pause_circuit_breaker 1 5 40 0 0 0 20
        { VGP.sampleP with paused := true }).1 rfl).2
  · exact (pause_circuit_breaker 2 0 0 0 0 0 0 VGP.sampleP).2.1 (by decide)

/-- C5: for every registered token, `queryRisk` returns the stored
score, level string and `lastUpdated` together with an `isStale` flag
equal to `now − lastUpdated > stalenessThreshold`, computed at the read
time `now` from the stored record (which has no staleness field); the
deployed default threshold is 24 hours. -/
theorem queryRisk_staleness (a now : Nat) (s : VGP.PState)
    (h : s.isRegistered a = true) :
    (∃ isStale : Bool,
      VGP.queryRisk a now s =
        .ok ((s.riskRegistry (s.tokenToNftId a)).riskScore,
             (s.riskRegistry (s.tokenToNftId a)).riskLevel,
             (s.riskRegistry (s.tokenToNftId a)).lastUpdated, isStale) ∧
      (isStale = true ↔
        s.stalenessThreshold <
          now - (s.riskRegistry (s.tokenToNftId a)).lastUpdated)) ∧
    (∀ d, (VGP.deploy d).stalenessThreshold = 24 * 60 * 60) := by
  refine ⟨⟨decide (s.stalenessThreshold <
      now - (s.riskRegistry (s.tokenToNftId a)).lastUpdated), ?_, by simp⟩,
    fun _ => rfl⟩
  unfold VGP.queryRisk
  rw [if_pos h]

/-- C5 witness: on the sample pausable registry, reading token 5 right
at its registration time `10` yields the stored `(50, "PENDING", 10)`
and a fresh (`false`) staleness flag, while reading at
`10 + 24·60·60 + 1` yields a stale (`true`) flag — same stored record,
different read times. -/
theorem queryRisk_staleness_witness :
    VGP.queryRisk 5 10 VGP.sampleP = .ok (50, "PENDING", 10, false) ∧
    VGP.queryRisk 5 (10 + 24 * 60 * 60 + 1) VGP.sampleP =
      .ok (50, "PENDING", 10, true) := by
  constructor
  · obtain ⟨b, hq, hiff⟩ := (queryRisk_staleness 5 10 VGP.sampleP (by decide)).1
    have hb : b = false := by
      cases b
      · rfl
      · exact absurd (hiff.1 rfl) (by decide)
    rw [hb] at hq
    exact hq
  · obtain ⟨b, hq, hiff⟩ :=
      (queryRisk_staleness 5 (10 + 24 * 60 * 60 + 1) VGP.sampleP (by decide)).1
    have hb : b = true := hiff.2 (by decide)
    rw [hb] at hq
    exact hq

namespace Agent

/-- One character of the `[0-9a-fA-F]` regex class in `isValidAddress`
(`src/agent/index.js`). -/
def isHexChar (c : Char) : Bool :=
  (48 ≤ c.toNat && c.toNat ≤ 57) ||
  (97 ≤ c.toNat && c.toNat ≤ 102) ||
  (65 ≤ c.toNat && c.toNat ≤ 70)

/-- `isValidAddress`: a string matching the anchored regex
`^0x[0-9a-fA-F]{40}$` (the `typeof addr !== "string"` guard is inherent
in the argument type). -/
def isValidAddress (addr : String) : Bool :=
  match addr.data with
  | '0' :: 'x' :: rest => rest.length == 40 && rest.all isHexChar
  | _ => false

/-- The fields of a `ContractAnalyzer.analyzeContract` report read by
the orchestrator. -/
structure ContractReport where
  overallRisk : Nat
  honeypotScore : Nat
  rugPullScore : Nat
  isVerified : Bool
  contractName : String
deriving DecidableEq

/-- The field of a `LiquidityMonitor.analyzeLiquidity` report read by
the orchestrator. -/
structure LiquidityReport where
  liquidityHealth : Nat
deriving DecidableEq

/-- The fields of a `CreatorProfiler.profileCreator` report read by the
orchestrator. -/
structure CreatorReport where
  riskScore : Nat
  creatorAddress : String
deriving DecidableEq

/-- The field of a `FlashLoanDetector.analyze` report read by the
orchestrator. -/
structure FlashLoanReport where
  flashLoanRisk : Nat
deriving DecidableEq

/-- The field of a `MEVDetector.analyze` report read by the
orchestrator. -/
structure MEVReport where
  mevRisk : Nat
deriving DecidableEq

/-- The settled outcomes of the five concurrent detector tasks, as
delivered by `Promise.allSettled`: each entry is fulfilled with a value
or rejected with an error message; the join waits for all five. -/
structure Outcomes where
  contractRep : Except String ContractReport
  liquidity : Except String LiquidityReport
  creator : Except String CreatorReport
  flashLoan : Except String FlashLoanReport
  mev : Except String MEVReport

/-- Neutral default substituted for a rejected `ContractAnalyzer` task. -/
def defaultContractReport : ContractReport :=
  ⟨50, 0, 0, false, "Unknown"⟩

/-- Neutral default substituted for a rejected `LiquidityMonitor` task. -/
def defaultLiquidityReport : LiquidityReport := ⟨50⟩

/-- Neutral default substituted for a rejected `CreatorProfiler` task. -/
def defaultCreatorReport : CreatorReport := ⟨50, "Unknown"⟩

/-- Neutral default substituted for a rejected `FlashLoanDetector` task. -/
def defaultFlashLoanReport : FlashLoanReport := ⟨0⟩

/-- Neutral default substituted for a rejected `MEVDetector` task. -/
def defaultMEVReport : MEVReport := ⟨0⟩

/-- The `results[i].status === "fulfilled" ? results[i].value : default`
extraction. -/
def settled {α : Type} (o : Except String α) (dflt : α) : α :=
  match o with
  | .ok v => v
  | .error _ => dflt

/-- `Math.min(100, Math.round(h*0.7 + c*0.3))` on integer sub-scores,
with the weighted sum evaluated in exact rational arithmetic
(ties of `Math.round` go up, hence the `+5` before the division). -/
def honeypotScoreOf (ch cr : Nat) : Nat :=
  min 100 ((7 * ch + 3 * cr + 5) / 10)

/-- `Math.min(100, Math.round(r*0.5 + c*0.3 + (100-l)*0.2))` on integer
sub-scores, in exact rational arithmetic. -/
def rugPullScoreOf (cg cr lh : Nat) : Nat :=
  min 100 ((5 * cg + 3 * cr + 2 * (100 - lh) + 5) / 10)

/-- The orchestrator's `overallRisk` blend
`0.30/0.20/0.15/0.10/0.13/0.12`, in exact rational arithmetic. -/
def overallRiskOf (co hp rp lq fl mv : Nat) : Nat :=
  min 100 ((30 * co + 20 * hp + 15 * rp + 10 * (100 - lq) +
    13 * fl + 12 * mv + 50) / 100)

/-- `_getRiskLevel` of the orchestrator (same bands as the contract). -/
def riskLevelOf (score : Nat) : String :=
  if score ≤ 20 then "SAFE"
  else if score ≤ 40 then "LOW"
  else if score ≤ 60 then "MEDIUM"
  else if score ≤ 80 then "HIGH"
  else "CRITICAL"

/-- The aggregate report assembled by `scanToken` (the fields carrying
scan timing are omitted: they are wall-clock bookkeeping with no effect
on any other field). -/
structure Report where
  tokenAddress : String
  overallRisk : Nat
  riskLevel : String
  honeypotScore : Nat
  rugPullScore : Nat
  liquidityScore : Nat
  flashLoanRisk : Nat
  mevRisk : Nat
  contractAnalysis : ContractReport
  liquidityAnalysis : LiquidityReport
  creatorProfile : CreatorReport
  flashLoanAnalysis : FlashLoanReport
  mevAnalysis : MEVReport
deriving DecidableEq

/-- `VibeGuardAgent.scanToken`: reject a malformed address up front
(before any detector result is consulted); otherwise substitute the
neutral default for every rejected detector, aggregate, and return the
report.  The detector tasks themselves perform network I/O and enter
the model as their settled outcomes. -/
def scanToken (tokenAddress : String) (oc : Outcomes) : Except String Report :=
  if isValidAddress tokenAddress then
    let contractReport := settled oc.contractRep defaultContractReport
    let liquidityReport := settled oc.liquidity defaultLiquidityReport
    let creatorReport := settled oc.creator defaultCreatorReport
    let flashLoanReport := settled oc.flashLoan defaultFlashLoanReport
    let mevReport := settled oc.mev defaultMEVReport
    let honeypotScore :=
      honeypotScoreOf contractReport.honeypotScore creatorReport.riskScore
    let rugPullScore := rugPullScoreOf contractReport.rugPullScore
      creatorReport.riskScore liquidityReport.liquidityHealth
    let liquidityScore := liquidityReport.liquidityHealth
    let overallRisk := overallRiskOf contractReport.overallRisk honeypotScore
      rugPullScore liquidityScore flashLoanReport.flashLoanRisk mevReport.mevRisk
    .ok { tokenAddress := tokenAddress
          overallRisk := overallRisk
          riskLevel := riskLevelOf overallRisk
          honeypotScore := honeypotScore
          rugPullScore := rugPullScore
          liquidityScore := liquidityScore
          flashLoanRisk := flashLoanReport.flashLoanRisk
          mevRisk := mevReport.mevRisk
          contractAnalysis := contractReport
          liquidityAnalysis := liquidityReport
          creatorProfile := creatorReport
          flashLoanAnalysis := flashLoanReport
          mevAnalysis := mevReport }
  else
    .error ("Invalid token address: " ++ tokenAddress ++
      ". Must be 0x followed by 40 hex chars.")

/-- Sample settled outcomes: contract analyzer and creator profiler
rejected, the other three fulfilled. -/
def sampleOutcomes : Outcomes where
  contractRep := .error ("network down")
  liquidity := .ok ⟨70⟩
  creator := .error ("api quota")
  flashLoan := .ok ⟨10⟩
  mev := .ok ⟨20⟩

end Agent

/-- C7: `scanToken` rejects a malformed address up front with an error
that does not depend on any detector outcome; for every well-formed
address it returns a best-effort report for all settled outcomes — no
failure combination makes it throw — in which every rejected detector
is replaced by its neutral default (contract `overallRisk` 50,
`liquidityHealth` 50, creator `riskScore` 50, `flashLoanRisk` 0,
`mevRisk` 0) and every fulfilled detector's report is used as
delivered. -/
theorem scanToken_resilient (addr : String) (oc : Agent.Outcomes) :
    (Agent.isValidAddress addr = false →
      ∃ msg, ∀ oc' : Agent.Outcomes, Agent.scanToken addr oc' = .error msg) ∧
    (Agent.isValidAddress addr = true →
      ∃ r, Agent.scanToken addr oc = .ok r ∧
        r.contractAnalysis =
          Agent.settled oc.contractRep Agent.defaultContractReport ∧
        r.liquidityAnalysis =
          Agent.settled oc.liquidity Agent.defaultLiquidityReport ∧
        r.creatorProfile = Agent.settled oc.creator Agent.defaultCreatorReport ∧
        r.flashLoanAnalysis =
          Agent.settled oc.flashLoan Agent.defaultFlashLoanReport ∧
        r.mevAnalysis = Agent.settled oc.mev Agent.defaultMEVReport ∧
        (∀ e, oc.contractRep = .error e →
          r.contractAnalysis = ⟨50, 0, 0, false, "Unknown"⟩) ∧
        (∀ e, oc.liquidity = .error e → r.liquidityAnalysis = ⟨50⟩) ∧
        (∀ e, oc.creator = .error e → r.creatorProfile = ⟨50, "Unknown"⟩) ∧
        (∀ e, oc.flashLoan = .error e → r.flashLoanAnalysis = ⟨0⟩) ∧
        (∀ e, oc.mev = .error e → r.mevAnalysis = ⟨0⟩)) := by
  constructor
  · intro h
    refine ⟨"Invalid token address: " ++ addr ++
      ". Must be 0x followed by 40 hex chars.", fun oc' => ?_⟩
    unfold Agent.scanToken
    rw [if_neg (by simp [h])]
  · intro h
    unfold Agent.scanToken
    rw [if_pos h]
    refine ⟨_, rfl, rfl, rfl, rfl, rfl, rfl, ?_, ?_, ?_, ?_, ?_⟩ <;>
      intro e he <;> rw [he] <;> rfl

/-- C7 witness: a malformed address is rejected for every outcome
combination, while on a well-formed address with the contract analyzer
and creator profiler rejected the scan still succeeds, substituting
their neutral defaults and keeping the fulfilled liquidity report. -/
theorem scanToken_resilient_witness :
    (∃ msg, ∀ oc' : Agent.Outcomes,
      Agent.scanToken "0x123" oc' = .error msg) ∧
    (∃ r, Agent.scanToken "0x0000000000000000000000000000000000000000"
        Agent.sampleOutcomes = .ok r ∧
      r.contractAnalysis = ⟨50, 0, 0, false, "Unknown"⟩ ∧
      r.creatorProfile = ⟨50, "Unknown"⟩ ∧
      r.liquidityAnalysis = ⟨70⟩) := by
  constructor
  · exact (scanToken_resilient "0x123" Agent.sampleOutcomes).1 (by decide)
  · obtain ⟨r, hok, hc, hl, hcr, -, -, -, -, -, -, -⟩ :=
      (scanToken_resilient "0x0000000000000000000000000000000000000000"
        Agent.sampleOutcomes).2 (by decide)
    exact ⟨r, hok, by rw [hc]; rfl, by rw [hcr]; rfl, by rw [hl]; rfl⟩

namespace CA

/-- One entry of the `DETECTION_FIELDS` table of
`src/agent/contractAnalyzer.js`: canonical id, category, signed weight. -/
structure FieldDef where
  id : String
  category : String
  weight : Int
deriving DecidableEq

/-- The `DETECTION_FIELDS` table after its first entry, in source
order. -/
def restFields : List FieldDef := [
  ⟨"is_proxy", "Contract Security", 15⟩,
  ⟨"has_selfdestruct", "Contract Security", 40⟩,
  ⟨"has_external_call", "Contract Security", 10⟩,
  ⟨"is_upgradeable", "Contract Security", 20⟩,
  ⟨"has_assembly", "Contract Security", 10⟩,
  ⟨"is_honeypot", "Honeypot Detection", 50⟩,
  ⟨"transfer_pausable", "Honeypot Detection", 30⟩,
  ⟨"is_blacklisted", "Honeypot Detection", 25⟩,
  ⟨"is_whitelisted", "Honeypot Detection", 10⟩,
  ⟨"trading_cooldown", "Honeypot Detection", 15⟩,
  ⟨"has_trading_toggle", "Honeypot Detection", 25⟩,
  ⟨"personal_slippage_mod", "Honeypot Detection", 20⟩,
  ⟨"hidden_owner", "Ownership Risks", 30⟩,
  ⟨"can_take_back_ownership", "Ownership Risks", 25⟩,
  ⟨"owner_change_balance", "Ownership Risks", 35⟩,
  ⟨"is_ownership_renounced", "Ownership Risks", -15⟩,
  ⟨"is_mintable", "Supply Manipulation", 30⟩,
  ⟨"is_burnable", "Supply Manipulation", 5⟩,
  ⟨"unlimited_supply", "Supply Manipulation", 25⟩,
  ⟨"tax_modifiable", "Tax & Fees", 25⟩,
  ⟨"has_buy_tax", "Tax & Fees", 10⟩,
  ⟨"has_sell_tax", "Tax & Fees", 10⟩,
  ⟨"high_tax_risk", "Tax & Fees", 30⟩,
  ⟨"is_buy_back", "Tax & Fees", 5⟩,
  ⟨"is_anti_whale", "Trading Restrictions", 15⟩,
  ⟨"anti_whale_modifiable", "Trading Restrictions", 20⟩,
  ⟨"has_max_tx", "Trading Restrictions", 15⟩,
  ⟨"has_max_wallet", "Trading Restrictions", 10⟩,
  ⟨"fake_token", "Fraud Detection", 40⟩,
  ⟨"fake_standard_interface", "Fraud Detection", 35⟩,
  ⟨"can_reinit", "Fraud Detection", 20⟩,
  ⟨"can_remove_liquidity", "Rug Pull Indicators", 35⟩,
  ⟨"has_liquidity_lock", "Rug Pull Indicators", -20⟩,
  ⟨"owner_can_drain", "Rug Pull Indicators", 40⟩]

/-- The full `DETECTION_FIELDS` table, in source order (the
`is_open_source` head entry followed by the rest). -/
def DETECTION_FIELDS : List FieldDef :=
  ⟨"is_open_source", "Contract Security", 20⟩ :: restFields

/-- JavaScript `String.prototype.includes` on character lists. -/
def listHasInfix (sub : List Char) : List Char → Bool
  | [] => sub.isPrefixOf []
  | c :: t => sub.isPrefixOf (c :: t) || listHasInfix sub t

/-- `code.includes(selector)`. -/
def includes (s sub : String) : Bool :=
  listHasInfix sub.data s.data

/-- `bytecode.toLowerCase()` (the selectors are ASCII hex). -/
def toLowerStr (s : String) : String :=
  String.mk (s.data.map Char.toLower)

/-- The `value` entries of `analyzeBytecodeFields` for the ids that the
merge in `analyzeContract` can find in `DETECTION_FIELDS` (the other
entries of the bytecode field map use ids outside the table and are
never read); empty or `"0x"` bytecode yields no fields at all.  The hex
selector constants are the `BYTECODE_SELECTORS` values. -/
def bytecodeDetected (bytecode : String) (f : String) : Bool :=
  if bytecode = "" || bytecode = "0x" then false
  else
    let code := toLowerStr bytecode
    if f = "has_selfdestruct" then includes code ("ff")
    else if f = "is_proxy" then includes code ("363d3d373d3d3d363d73")
    else if f = "is_mintable" then includes code ("40c10f19")
    else if f = "is_burnable" then includes code ("42966c68")
    else if f = "transfer_pausable" then includes code ("8456cb59")
    else if f = "has_max_tx" then includes code ("e4748b9e")
    else if f = "is_blacklisted" then includes code ("f9f92be4")
    else false

/-- The detection-field ids that own a regex entry in
`SOURCE_PATTERNS` (all four pattern categories), in source order. -/
def sourcePatternFields : List String :=
  ["has_max_tx", "has_max_wallet", "is_blacklisted", "is_whitelisted",
   "has_selfdestruct", "is_upgradeable", "trading_cooldown",
   "has_trading_toggle", "is_anti_whale", "has_assembly", "is_proxy",
   "transfer_pausable", "personal_slippage_mod", "can_remove_liquidity",
   "is_mintable", "is_ownership_renounced", "has_liquidity_lock",
   "owner_can_drain", "has_external_call", "can_reinit", "tax_modifiable",
   "has_buy_tax", "has_sell_tax", "high_tax_risk", "is_buy_back",
   "anti_whale_modifiable", "fake_token", "hidden_owner",
   "owner_change_balance", "can_take_back_ownership"]

/-- Abstraction of one verified source text: which `SOURCE_PATTERNS`
regexes match it (keyed by the pattern's field id — the ids are
pairwise distinct in the table) and whether the fake-token loop over
`MAINSTREAM_TOKENS` matches.  The JavaScript regex engine is external
to the model; a source text enters as its match results. -/
structure SrcMatches where
  hits : String → Bool
  fakeToken : Bool

/-- The `value` entries of the `detectedFields` map built by
`analyzeSourceFields`: with no source text only
`is_open_source = false` is set (every other field is absent, i.e.
not detected); with source text, `is_open_source = true` plus every
matched pattern's field plus `fake_token` on a fake-token match. -/
def sourceDetected (src : Option SrcMatches) (f : String) : Bool :=
  match src with
  | none => false
  | some m =>
    if f = "is_open_source" then true
    else (sourcePatternFields.contains f && m.hits f) ||
      (f == "fake_token" && m.fakeToken)

/-- The `detected` entry of the merged `allFields` map of
`analyzeContract`: `!!(bytecodeField?.value || sourceField?.value)`. -/
def mergedDetected (bytecode : String) (src : Option SrcMatches)
    (f : String) : Bool :=
  bytecodeDetected bytecode f || sourceDetected src f

/-- One step of the `_categoryScore` loop:
`if (field.category === category && field.detected) score += Math.abs(field.weight)`. -/
def scoreStep (detected : String → Bool) (cat : String) (acc : Nat)
    (fd : FieldDef) : Nat :=
  if fd.category = cat ∧ detected fd.id then acc + fd.weight.natAbs else acc

/-- `_categoryScore`: fold of `scoreStep` over the merged field map
(which enumerates exactly the `DETECTION_FIELDS` entries). -/
def categoryScore (detected : String → Bool) (cat : String) : Nat :=
  DETECTION_FIELDS.foldl (scoreStep detected cat) 0

/-- The category scorer as the spec words it (for comparison with the
source's `categoryScore`): signed sum of the matched detection-field
weights within the category, clamped at ≥ 0. -/
def categoryScoreSpec (detected : String → Bool) (cat : String) : Int :=
  max 0 (DETECTION_FIELDS.foldl (fun acc fd =>
    if fd.category = cat ∧ detected fd.id then acc + fd.weight else acc) 0)

/-- The `overallRisk` blend of `analyzeContract`
(`0.25/0.20/0.15/0.10/0.05/0.15/0.10` over the seven capped category
scores), with the double arithmetic modelled by exact rational
rounding. -/
def overallRiskOf (detected : String → Bool) : Nat :=
  let hp := min 100 (categoryScore detected ("Honeypot Detection"))
  let rug := min 100 (categoryScore detected ("Rug Pull Indicators"))
  let own := min 100 (categoryScore detected ("Ownership Risks"))
  let tax := min 100 (categoryScore detected ("Tax & Fees"))
  let trade := min 100 (categoryScore detected ("Trading Restrictions"))
  let fraud := min 100 (categoryScore detected ("Fraud Detection"))
  let cs := min 100 (categoryScore detected ("Contract Security"))
  min 100 ((25 * hp + 20 * rug + 15 * own + 10 * tax + 5 * trade +
    15 * fraud + 10 * cs + 50) / 100)

/-- `analyzeContract` reduced to its score pipeline: merge the bytecode
and source detections, then blend the category scores. -/
def analyzeOverall (bytecode : String) (src : Option SrcMatches) : Nat :=
  overallRiskOf (mergedDetected bytecode src)

/-- A verified source text matching no scan pattern at all. -/
def srcBenign : SrcMatches := ⟨fun _ => false, false⟩

/-- A verified source text matching exactly the
`renounced|renounceOwnership` pattern (field `is_ownership_renounced`). -/
def srcRenounced : SrcMatches := ⟨fun f => f == "is_ownership_renounced", false⟩

end CA

namespace CA

/-- Helper: the bytecode analysis never produces an `is_open_source`
field. -/
theorem bytecodeDetected_is_open_source (b : String) :
    bytecodeDetected b ("is_open_source") = false := by
  simp [bytecodeDetected]

/-- Helper: the category-score fold is monotone in the detection map
and in the accumulator, with a constant offset carried through. -/
theorem foldl_score_le (l : List FieldDef) (d1 d2 : String → Bool)
    (cat : String) (h : ∀ f, d1 f = true → d2 f = true) (a1 a2 k : Nat)
    (ha : a1 + k ≤ a2) :
    l.foldl (scoreStep d1 cat) a1 + k ≤ l.foldl (scoreStep d2 cat) a2 := by
  induction l generalizing a1 a2 with
  | nil => simpa using ha
  | cons fd t ih =>
    simp only [List.foldl_cons]
    apply ih
    unfold scoreStep
    split_ifs with c1 c2
    · omega
    · exact absurd ⟨c1.1, h _ c1.2⟩ c2
    · omega
    · omega

/-- Helper: detection maps agreeing on every id of the list fold to the
same score, with a constant accumulator offset carried through. -/
theorem foldl_score_diff (l : List FieldDef) (d1 d2 : String → Bool)
    (cat : String) (k : Nat) (h : ∀ fd ∈ l, d1 fd.id = d2 fd.id) (a : Nat) :
    l.foldl (scoreStep d2 cat) (a + k) = l.foldl (scoreStep d1 cat) a + k := by
  induction l generalizing a with
  | nil => rfl
  | cons fd t ih =>
    simp only [List.foldl_cons]
    have hstep : scoreStep d2 cat (a + k) fd = scoreStep d1 cat a fd + k := by
      unfold scoreStep
      rw [h fd (by simp)]
      split_ifs <;> omega
    rw [hstep]
    exact ih (fun fd' hm => h fd' (by simp [hm])) _

end CA

/-- C8 (the code evaluated at the failing input): on bytecode `"0x00"`
with a verified source matching only the `renounced|renounceOwnership`
pattern, `_categoryScore` adds `Math.abs(-15) = 15` for the Ownership
Risks category, whereas the same input without the match scores 0 —
detecting `is_ownership_renounced` raises the category score; the
spec's signed-sum-clamped scorer would give 0. -/
theorem categoryScore_abs_renounced :
    CA.categoryScore (CA.mergedDetected "0x00" (some CA.srcRenounced))
        ("Ownership Risks") = 15 ∧
    CA.categoryScore (CA.mergedDetected "0x00" (some CA.srcBenign))
        ("Ownership Risks") = 0 ∧
    CA.categoryScoreSpec (CA.mergedDetected "0x00" (some CA.srcRenounced))
        ("Ownership Risks") = 0 := by
  decide

/-- C9 (the code evaluated at the failing input): with no verified
source the merged `is_open_source` field is reported false, but the
30-point unverified penalty computed inside `analyzeSourceFields` is
discarded by `analyzeContract`: on bytecode `"0x00"` the unverified run
scores overall 0 while the identical bytecode with a benign verified
source scores 2 — the missing-source case is strictly lower, not
strictly higher. -/
theorem unverified_source_scores_lower :
    CA.sourceDetected none ("is_open_source") = false ∧
    CA.mergedDetected "0x00" none ("is_open_source") = false ∧
    CA.analyzeOverall "0x00" none = 0 ∧
    CA.analyzeOverall "0x00" (some CA.srcBenign) = 2 ∧
    CA.analyzeOverall "0x00" none < CA.analyzeOverall "0x00" (some CA.srcBenign) := by
  decide

/-- C10: presence of a verified source sets the merged
`is_open_source` detection; for a source matching no pattern the
Contract Security category score is exactly 20 above the same bytecode
without source, and for an arbitrary source it is at least 20 above —
verified source raises, never lowers, the analyzer's contract-security
contribution. -/
theorem open_source_raises_contract_security
    (bytecode : String) (m : CA.SrcMatches) :
    CA.mergedDetected bytecode (some m) ("is_open_source") = true ∧
    ((∀ f, m.hits f = false) → m.fakeToken = false →
      CA.categoryScore (CA.mergedDetected bytecode (some m))
          ("Contract Security") =
        CA.categoryScore (CA.mergedDetected bytecode none)
          ("Contract Security") + 20) ∧
    CA.categoryScore (CA.mergedDetected bytecode none) ("Contract Security")
        + 20 ≤
      CA.categoryScore (CA.mergedDetected bytecode (some m))
        ("Contract Security") := by
  have hopen : CA.mergedDetected bytecode (some m) ("is_open_source") = true := by
    simp [CA.mergedDetected, CA.sourceDetected]
  have hnone : CA.mergedDetected bytecode none ("is_open_source") = false := by
    simp [CA.mergedDetected, CA.sourceDetected, CA.bytecodeDetected_is_open_source]
  have hstep1 : CA.scoreStep (CA.mergedDetected bytecode (some m))
      ("Contract Security") 0 ⟨"is_open_source", "Contract Security", 20⟩ =
      0 + 20 := by
    unfold CA.scoreStep
    rw [if_pos ⟨rfl, hopen⟩]
    rfl
  have hstep0 : CA.scoreStep (CA.mergedDetected bytecode none)
      ("Contract Security") 0 ⟨"is_open_source", "Contract Security", 20⟩ =
      0 := by
    unfold CA.scoreStep
    rw [if_neg (by simp [hnone])]
  refine ⟨hopen, ?_, ?_⟩
  · intro hm hf
    unfold CA.categoryScore CA.DETECTION_FIELDS
    rw [List.foldl_cons, List.foldl_cons, hstep1, hstep0]
    apply CA.foldl_score_diff
    intro fd hfd
    have hne : fd.id ≠ "is_open_source" := by
      have hall : ∀ fd ∈ CA.restFields, fd.id ≠ "is_open_source" := by decide
      exact hall fd hfd
    simp [CA.mergedDetected, CA.sourceDetected, hm, hf, hne]
  · unfold CA.categoryScore CA.DETECTION_FIELDS
    rw [List.foldl_cons, List.foldl_cons, hstep1, hstep0]
    apply CA.foldl_score_le
    · intro f hf
      simp only [CA.mergedDetected, Bool.or_eq_true] at hf ⊢
      rcases hf with hb | hs
      · exact Or.inl hb
      · simp [CA.sourceDetected] at hs
    · omega

/-- C10 witness: on bytecode `"0x00"`, a benign verified source sets
`is_open_source` and puts the Contract Security category exactly 20
points above the no-source run. -/
theorem open_source_raises_contract_security_witness :
    CA.mergedDetected "0x00" (some CA.srcBenign) ("is_open_source") = true ∧
    CA.categoryScore (CA.mergedDetected "0x00" (some CA.srcBenign))
        ("Contract Security") =
      CA.categoryScore (CA.mergedDetected "0x00" none)
        ("Contract Security") + 20 := by
  exact ⟨(open_source_raises_contract_security "0x00" CA.srcBenign).1,
    (open_source_raises_contract_security "0x00" CA.srcBenign).2.1
      (fun _ => rfl) rfl⟩
